import Mathlib

/-!
Shallow embedding of the scamcoin-tracker frontend (src/frontend/src/App.tsx).

The component's state hooks become a record `UIState`; each handler becomes a
state-transition function taking the outcome of its network call as an explicit
parameter (the backend is an external collaborator).  Numeric fields typed
`number` in TypeScript are modelled as `Int`: no claim computes with them, they
are opaque payload.  JavaScript's `Array.prototype.sort` (guaranteed stable
with a consistent comparator since ES2019) is modelled by `List.mergeSort`,
which is stable and sorts.
-/

/-- Mirror of the `Cryptocurrency` interface (App.tsx lines 34-44). -/
structure Cryptocurrency where
  id : Nat
  name : String
  symbol : String
  price : Int
  percent_change_24h : Int
  percent_change_7d : Int
  market_cap : Int
  is_default : Bool
  logo : String
deriving DecidableEq

/-- Mirror of the `SearchResult` interface (App.tsx lines 46-49). -/
structure SearchResult where
  symbol : String
  name : String
deriving DecidableEq

/-- The component state hooks (App.tsx lines 52-58).  `anchorElSet` models
whether `anchorEl` is non-null; the DOM element itself is irrelevant. -/
structure UIState where
  cryptocurrencies : List Cryptocurrency
  isSearchDialogOpen : Bool
  searchTerm : String
  searchResults : List SearchResult
  error : String
  isLoading : Bool
  anchorElSet : Bool
deriving DecidableEq

/-- Initial values of the `useState` hooks (App.tsx lines 52-58):
empty list, dialog closed, empty search, no error, `isLoading` true, no anchor. -/
def initialState : UIState :=
  { cryptocurrencies := []
    isSearchDialogOpen := false
    searchTerm := ""
    searchResults := []
    error := ""
    isLoading := true
    anchorElSet := false }

/-- The comparator passed to `response.data.sort` (App.tsx lines 80-82):
`a.is_default === b.is_default ? 0 : a.is_default ? -1 : 1`. -/
def sortComparator (a b : Cryptocurrency) : Int :=
  if a.is_default = b.is_default then 0 else if a.is_default then -1 else 1

/-- The comparator read as a boolean "less-or-equal" (comparator value ≤ 0). -/
def comparatorLE (a b : Cryptocurrency) : Bool :=
  sortComparator a b ≤ 0

/-- `response.data.sort(comparator)` (App.tsx lines 80-82).  ECMAScript
guarantees a stable sort consistent with the comparator; `List.mergeSort` is
stable and sorts, so it realises exactly that contract. -/
def jsStableSort (l : List Cryptocurrency) : List Cryptocurrency :=
  l.mergeSort comparatorLE

/-- Body of an axios error response: either array-shaped (the fallback-data
case tested by `Array.isArray` at line 97) or not (carried as its
`JSON.stringify` rendering, used at line 101). -/
inductive ErrBody where
  | arr (data : List Cryptocurrency)
  | nonArr (stringified : String)
deriving DecidableEq

/-- The fields of an `AxiosError` that `fetchCryptocurrencies` inspects:
`response` (line 92), `request` (line 103), plus `code`/`message` (used by the
connectivity probe and to characterise timeouts). -/
structure AxiosErrorModel where
  response : Option ErrBody
  request : Bool
  code : String
  message : String
deriving DecidableEq

/-- A failure caught at App.tsx line 86: either an axios error
(`axios.isAxiosError` true, line 90) or any other thrown value. -/
inductive FetchError where
  | axios (e : AxiosErrorModel)
  | other
deriving DecidableEq

/-- Outcome of the GET on `{base}/cryptocurrencies`. -/
inductive FetchOutcome where
  | success (data : List Cryptocurrency)
  | failure (e : FetchError)
deriving DecidableEq

/-- An axios timeout (the 10000 ms budget at line 70 being exceeded): axios
aborts with code `ECONNABORTED`, no response was received, and the request
object exists.  This models the axios library's documented timeout shape. -/
def isTimeoutError (a : AxiosErrorModel) : Prop :=
  a.code = "ECONNABORTED" ∧ a.response = none ∧ a.request = true

/-- The state updates `fetchCryptocurrencies` performs before awaiting the
response (App.tsx lines 61-62): `setIsLoading(true); setError('')`. -/
def fetchStart (s : UIState) : UIState :=
  { s with isLoading := true, error := "" }

/-- The state updates performed once the list request settles
(App.tsx lines 79-113): on success sort default-first and install the data,
clear loading; on failure clear loading then branch on the axios error shape,
installing an array-shaped failure body verbatim as fallback data. -/
def fetchSettle (s : UIState) : FetchOutcome → UIState
  | .success data =>
      { s with cryptocurrencies := jsStableSort data, isLoading := false }
  | .failure e =>
      let s' := { s with isLoading := false }
      match e with
      | .axios a =>
          match a.response with
          | some (.arr data) =>
              { s' with cryptocurrencies := data
                        error := "Unable to fetch live cryptocurrency data. Showing default coins." }
          | some (.nonArr str) =>
              { s' with error := "Server Error: " ++ str }
          | none =>
              if a.request then
                { s' with error := "No response from server. Check your network connection." }
              else
                { s' with error := "Error setting up the request. Check your network connection." }
      | .other => { s' with error := "An unexpected error occurred" }

/-- One complete run of `fetchCryptocurrencies` (App.tsx lines 60-115):
the synchronous start updates followed by the settle updates. -/
def fetchCryptocurrencies (s : UIState) (o : FetchOutcome) : UIState :=
  fetchSettle (fetchStart s) o

/-- The ordering invariant claimed for the table list: every default-flagged
coin precedes every non-default coin. -/
def defaultsFirst (l : List Cryptocurrency) : Prop :=
  l.Pairwise (fun a b => b.is_default = true → a.is_default = true)

instance (l : List Cryptocurrency) : Decidable (defaultsFirst l) := by
  unfold defaultsFirst
  infer_instance

/-- JavaScript `hay.includes(needle)` on character lists: `needle` occurs as a
contiguous substring of `hay` (the empty needle always matches). -/
def charsContain (needle : List Char) : List Char → Bool
  | [] => needle.isEmpty
  | c :: rest => needle.isPrefixOf (c :: rest) || charsContain needle rest

/-- JavaScript `hay.includes(needle)` on strings. -/
def jsIncludes (hay needle : String) : Bool :=
  charsContain needle.data hay.data

/-- The defensive re-filter predicate (App.tsx lines 199-202):
`result.symbol.toLowerCase().includes(query.toLowerCase()) ||
 result.name.toLowerCase().includes(query.toLowerCase())`. -/
def searchMatches (query : String) (r : SearchResult) : Bool :=
  jsIncludes r.symbol.toLower query.toLower || jsIncludes r.name.toLower query.toLower

/-- `validResults` (App.tsx lines 198-203): filter the response by the
substring predicate, then `.slice(0, 10)`. -/
def validResults (query : String) (data : List SearchResult) : List SearchResult :=
  (data.filter (searchMatches query)).take 10

/-- Outcome of the GET on `{base}/cryptocurrency/search/{query}`: success with
a candidate array, an axios failure (carrying `response.data.error` when the
backend supplied one, line 211), or a non-axios failure. -/
inductive SearchOutcome where
  | success (data : List SearchResult)
  | axiosFailure (backendError : Option String)
  | otherFailure
deriving DecidableEq

/-- One complete run of `searchCryptocurrencies` (App.tsx lines 180-217):
queries shorter than 2 characters clear the candidates and issue no request;
otherwise on success the filtered, capped results are installed, and on
failure an error message is set and the candidates cleared. -/
def searchCryptocurrencies (s : UIState) (query : String) (o : SearchOutcome) : UIState :=
  if query.length < 2 then { s with searchResults := [] }
  else
    match o with
    | .success data => { s with searchResults := validResults query data }
    | .axiosFailure be =>
        { s with error := "Search failed: " ++ be.getD "Unknown error"
                 searchResults := [] }
    | .otherFailure =>
        { s with error := "Failed to perform search. Please try again."
                 searchResults := [] }

/-- Outcome of the GET on `{base}/cryptocurrency/add/{symbol}`.  A successful
add is awaited and then triggers `fetchCryptocurrencies`, whose own outcome is
carried alongside; failures carry `response.data.error` when present
(App.tsx line 253). -/
inductive AddOutcome where
  | success (refetch : FetchOutcome)
  | axiosFailure (backendError : Option String)
  | otherFailure
deriving DecidableEq

/-- The primitive state-affecting steps `handleAddCrypto`'s success path
performs, in source order, used to count how many list re-fetches it issues. -/
inductive Eff where
  | addRequest (symbol : String)
  | fetchListCall
  | setDialog (b : Bool)
  | setResults (l : List SearchResult)
  | setTerm (t : String)
  | setErrorMsg (e : String)
deriving DecidableEq

/-- Transcription of the success path of `handleAddCrypto`
(App.tsx lines 236-250): issue the add request, await one
`fetchCryptocurrencies()`, close the dialog, clear results, clear the term,
clear the error — in that order. -/
def handleAddCryptoSuccessScript (symbol : String) : List Eff :=
  [ .addRequest symbol
  , .fetchListCall
  , .setDialog false
  , .setResults []
  , .setTerm ""
  , .setErrorMsg "" ]

/-- Interpreter for one step; the add request itself does not touch UI state,
and the one list re-fetch behaves as `fetchCryptocurrencies` with outcome `fo`. -/
def runEff (fo : FetchOutcome) (s : UIState) : Eff → UIState
  | .addRequest _ => s
  | .fetchListCall => fetchCryptocurrencies s fo
  | .setDialog b => { s with isSearchDialogOpen := b }
  | .setResults l => { s with searchResults := l }
  | .setTerm t => { s with searchTerm := t }
  | .setErrorMsg e => { s with error := e }

/-- Run a step script left to right. -/
def runScript (fo : FetchOutcome) (s : UIState) (es : List Eff) : UIState :=
  es.foldl (runEff fo) s

/-- Number of list re-fetches a script issues. -/
def countFetchCalls (es : List Eff) : Nat :=
  es.countP (fun e => e = Eff.fetchListCall)

/-- One complete run of `handleAddCrypto` (App.tsx lines 233-261).  All of its
state updates happen after the first `await`, so modelling it as a function of
the pre-await state is faithful even when called without `await`. -/
def handleAddCrypto (s : UIState) (symbol : String) : AddOutcome → UIState
  | .success fo => runScript fo s (handleAddCryptoSuccessScript symbol)
  | .axiosFailure be => { s with error := be.getD "Failed to add cryptocurrency" }
  | .otherFailure => { s with error := "An unexpected error occurred" }

/-- `handleSelectSearchResult` (App.tsx lines 263-268): `handleAddCrypto` is
invoked without `await`, so its synchronous prefix (which performs no state
updates before its first `await`) runs, then the three clears run
synchronously, and only afterwards does the add settle.  The net state is
therefore `handleAddCrypto` applied to the cleared state. -/
def handleSelectSearchResult (s : UIState) (r : SearchResult) (o : AddOutcome) : UIState :=
  handleAddCrypto { s with searchTerm := "", searchResults := [], anchorElSet := false } r.symbol o

/-- The lodash debounce wait (App.tsx line 222). -/
def debounceDelay : Nat := 300

/-- Trailing-edge debounce (lodash default, App.tsx lines 219-224) over a
timed keystroke trace.  State: the pending scheduled invocation (deadline,
argument).  A keystroke at time `t` fires the pending invocation first when
its deadline has already passed, and (re)schedules at `t + debounceDelay`;
after the last keystroke the pending invocation fires.  Returns the fired
invocations as (time, query) pairs. -/
def debounceRun : Option (Nat × String) → List (Nat × String) → List (Nat × String)
  | none, [] => []
  | some p, [] => [p]
  | pending, (t, q) :: rest =>
      match pending with
      | some (d, a) =>
          if d ≤ t then (d, a) :: debounceRun (some (t + debounceDelay, q)) rest
          else debounceRun (some (t + debounceDelay, q)) rest
      | none => debounceRun (some (t + debounceDelay, q)) rest

/-- The invocations of the debounced `searchCryptocurrencies` produced by a
keystroke trace (each `handleSearchChange` calls `debouncedSearch(query)`,
App.tsx lines 226-231), starting with nothing scheduled and letting the trace
quiesce at the end. -/
def debouncedSearchCalls (events : List (Nat × String)) : List (Nat × String) :=
  debounceRun none events

/-- A burst: each keystroke arrives no earlier than, and within 300 ms of,
the previous one. -/
def burstChained (events : List (Nat × String)) : Prop :=
  events.Chain' (fun e f => e.1 ≤ f.1 ∧ f.1 < e.1 + debounceDelay)

instance (events : List (Nat × String)) : Decidable (burstChained events) :=
  inferInstanceAs
    (Decidable (events.Chain'
      (fun (e f : Nat × String) => e.1 ≤ f.1 ∧ f.1 < e.1 + debounceDelay)))

/-! ### The sort used by a successful list fetch -/

theorem boolKey_trans {α : Type} (p : α → Bool) :
    ∀ a b c : α, (p a || !p b) = true → (p b || !p c) = true → (p a || !p c) = true := by
  intro a b c h1 h2
  cases hpa : p a <;> cases hpb : p b <;> cases hpc : p c <;> simp_all

theorem boolKey_total {α : Type} (p : α → Bool) :
    ∀ a b : α, ((p a || !p b) || (p b || !p a)) = true := by
  intro a b
  cases hpa : p a <;> cases hpb : p b <;> simp_all

/-- A stable sort whose key is a single boolean predicate `p` (true first)
is exactly the `p`-elements in input order followed by the non-`p`-elements
in input order. -/
theorem mergeSort_boolKey {α : Type} (p : α → Bool) :
    ∀ l : List α,
      l.mergeSort (fun a b => p a || !p b) = l.filter p ++ l.filter (fun a => !p a) := by
  intro l
  induction l with
  | nil => simp
  | cons a t ih =>
    obtain ⟨l₁, l₂, h₁, h₂, h₃⟩ :=
      List.mergeSort_cons (boolKey_trans p) (boolKey_total p) a t
    cases hpa : p a with
    | true =>
      have hl₁ : l₁ = [] := by
        cases l₁ with
        | nil => rfl
        | cons x xs =>
          have hx := h₃ x (List.mem_cons_self x xs)
          simp [hpa] at hx
      subst hl₁
      simp only [List.nil_append] at h₁ h₂
      rw [h₁, ← h₂, ih]
      simp [List.filter_cons, hpa]
    | false =>
      have hsorted := @List.sorted_mergeSort _ (fun a b => p a || !p b)
        (boolKey_trans p) (boolKey_total p) (a :: t)
      rw [h₁] at hsorted
      have hl₂ : ∀ b ∈ l₂, p b = false := by
        intro b hb
        have hc : (a :: l₂).Pairwise (fun x y => (p x || !p y) = true) :=
          ((List.pairwise_append.mp hsorted).2.1)
        have := List.rel_of_pairwise_cons hc hb
        simp [hpa] at this
        simpa using this
      have hl₁ : ∀ b ∈ l₁, p b = true := by
        intro b hb
        have := h₃ b hb
        simp [hpa] at this
        exact this
      have hsplit : l₁ ++ l₂ = t.filter p ++ t.filter (fun a => !p a) := by
        rw [← h₂, ih]
      have e₁ : l₁ = t.filter p := by
        have hcong := congrArg (List.filter p) hsplit
        rw [List.filter_append, List.filter_append] at hcong
        rw [List.filter_eq_self.mpr hl₁] at hcong
        rw [List.filter_eq_nil_iff.mpr (by intro b hb; simp [hl₂ b hb])] at hcong
        rw [List.filter_filter, List.filter_filter] at hcong
        simpa using hcong
      have e₂ : l₂ = t.filter (fun a => !p a) := by
        have hcong := congrArg (List.filter (fun a => !p a)) hsplit
        rw [List.filter_append, List.filter_append] at hcong
        rw [List.filter_eq_nil_iff.mpr (by intro b hb; simp [hl₁ b hb])] at hcong
        rw [List.filter_eq_self.mpr (by intro b hb; simp [hl₂ b hb])] at hcong
        rw [List.filter_filter, List.filter_filter] at hcong
        simpa using hcong
      rw [h₁, e₁, e₂]
      simp [List.filter_cons, hpa]

/-- The source comparator, read as ≤, is the boolean-key order on `is_default`. -/
theorem comparatorLE_eq :
    comparatorLE = fun a b => a.is_default || !b.is_default := by
  funext a b
  unfold comparatorLE sortComparator
  cases ha : a.is_default <;> cases hb : b.is_default <;> simp [ha, hb]

/-- `response.data.sort(comparator)` keeps the default coins first, each group
in response order. -/
theorem jsStableSort_eq (l : List Cryptocurrency) :
    jsStableSort l
      = l.filter (fun c => c.is_default) ++ l.filter (fun c => !c.is_default) := by
  unfold jsStableSort
  rw [comparatorLE_eq]
  exact mergeSort_boolKey (fun c => c.is_default) l

/-- A defaults-then-rest filter split satisfies the ordering invariant. -/
theorem defaultsFirst_filterSplit (l : List Cryptocurrency) :
    defaultsFirst (l.filter (fun c => c.is_default) ++ l.filter (fun c => !c.is_default)) := by
  unfold defaultsFirst
  rw [List.pairwise_append]
  refine ⟨?_, ?_, ?_⟩
  · refine List.pairwise_of_forall_mem_list ?_
    intro a ha b hb
    intro _
    exact (List.mem_filter.mp ha).2
  · refine List.pairwise_of_forall_mem_list ?_
    intro a ha b hb hb'
    have := (List.mem_filter.mp hb).2
    simp [hb'] at this
  · intro a ha b hb
    intro _
    exact (List.mem_filter.mp ha).2

/-! ### Concrete fixtures -/

/-- A default-flagged coin. -/
def coinDefault : Cryptocurrency :=
  { id := 1, name := "Bitcoin", symbol := "BTC", price := 97000
    percent_change_24h := 2, percent_change_7d := 5, market_cap := 1900000
    is_default := true, logo := "btc.png" }

/-- A non-default coin. -/
def coinNonDefault : Cryptocurrency :=
  { id := 2, name := "Dogecoin", symbol := "DOGE", price := 1
    percent_change_24h := -3, percent_change_7d := 8, market_cap := 50000
    is_default := false, logo := "doge.png" }

/-- The axios error shape produced by the 10 s list-fetch timeout. -/
def timeoutError : AxiosErrorModel :=
  { response := none, request := true, code := "ECONNABORTED"
    message := "timeout of 10000ms exceeded" }

/-- A fetchList failure whose caught error carries no array-shaped body:
a response whose body is not an array, a no-response failure, a setup
failure, or a non-axios throw. -/
def nonArrayFailure : FetchError → Prop
  | .axios a =>
      match a.response with
      | some (.arr _) => False
      | _ => True
  | .other => True

/-! ### Claim theorems -/

/-- C2: for every successful fetchList response, the UI list is replaced by
the response stably sorted by the default flag — every default-flagged coin
first, each group in exactly its response order. -/
theorem fetch_success_stable_default_first (s : UIState) (data : List Cryptocurrency) :
    (fetchCryptocurrencies s (.success data)).cryptocurrencies
      = data.filter (fun c => c.is_default) ++ data.filter (fun c => !c.is_default) := by
  simp [fetchCryptocurrencies, fetchSettle, fetchStart, jsStableSort_eq]

/-- C1 counterexample: the fallback-data path of a failed fetchList installs
the error-response body verbatim without sorting, so a body listing a
non-default coin before a default one violates the defaults-first invariant. -/
theorem fallback_breaks_defaults_first :
    ¬ defaultsFirst ((fetchCryptocurrencies initialState
        (.failure (.axios { response := some (.arr [coinNonDefault, coinDefault])
                            request := true, code := "ERR_BAD_RESPONSE"
                            message := "Request failed with status code 500" }))).cryptocurrencies) := by
  decide

/-- C1 (amended): a successful fetchList — including the re-fetch triggered by
a successful add — always yields a defaults-first list, but the fallback-data
path of a failed fetchList installs the failure body verbatim, so the ordering
invariant is not re-established there. -/
theorem list_ordering_per_path (s : UIState) (data body : List Cryptocurrency)
    (symbol : String) (rq : Bool) (c m : String) :
    defaultsFirst ((fetchCryptocurrencies s (.success data)).cryptocurrencies)
    ∧ defaultsFirst ((handleAddCrypto s symbol (.success (.success data))).cryptocurrencies)
    ∧ (fetchCryptocurrencies s
        (.failure (.axios { response := some (.arr body), request := rq
                            code := c, message := m }))).cryptocurrencies = body := by
  refine ⟨?_, ?_, ?_⟩
  · simp only [fetchCryptocurrencies, fetchSettle, jsStableSort_eq]
    exact defaultsFirst_filterSplit data
  · simp only [handleAddCrypto, runScript, handleAddCryptoSuccessScript, List.foldl,
      runEff, fetchCryptocurrencies, fetchSettle, jsStableSort_eq]
    exact defaultsFirst_filterSplit data
  · simp [fetchCryptocurrencies, fetchSettle]

/-- C5 counterexample: after the initial fetch has completed and cleared the
loading flag, the next fetchList invocation sets the loading flag back to
true the moment it starts. -/
theorem later_fetch_sets_loading :
    (fetchCryptocurrencies initialState (.success [])).isLoading = false
    ∧ (fetchStart (fetchCryptocurrencies initialState (.success []))).isLoading = true := by
  exact ⟨rfl, rfl⟩

/-- C5 (amended): the loading flag is set to true at the start of every
fetchList invocation — not only the first — and reset to false whenever the
call settles, success or failure. -/
theorem loading_true_during_every_fetch (s : UIState) (o : FetchOutcome) :
    (fetchStart s).isLoading = true
    ∧ (fetchCryptocurrencies s o).isLoading = false := by
  refine ⟨rfl, ?_⟩
  cases o with
  | success data => rfl
  | failure e =>
    cases e with
    | axios a =>
      obtain ⟨resp, rq, code, msg⟩ := a
      cases resp with
      | none => cases rq <;> rfl
      | some b => cases b <;> rfl
    | other => rfl

/-- C10: every fetchList failure without an array-shaped response body leaves
the tracked-coin list — and every other field except the error message and
loading flag — exactly as it was before the call. -/
theorem fetch_failure_atomic (s : UIState) (e : FetchError) (h : nonArrayFailure e) :
    (fetchCryptocurrencies s (.failure e)).cryptocurrencies = s.cryptocurrencies
    ∧ (fetchCryptocurrencies s (.failure e)).searchTerm = s.searchTerm
    ∧ (fetchCryptocurrencies s (.failure e)).searchResults = s.searchResults
    ∧ (fetchCryptocurrencies s (.failure e)).isSearchDialogOpen = s.isSearchDialogOpen
    ∧ (fetchCryptocurrencies s (.failure e)).anchorElSet = s.anchorElSet := by
  cases e with
  | axios a =>
    obtain ⟨resp, rq, code, msg⟩ := a
    cases resp with
    | none => cases rq <;> exact ⟨rfl, rfl, rfl, rfl, rfl⟩
    | some b =>
      cases b with
      | arr body => exact h.elim
      | nonArr str => exact ⟨rfl, rfl, rfl, rfl, rfl⟩
  | other => exact ⟨rfl, rfl, rfl, rfl, rfl⟩

/-- C10 witness: a concrete 500-with-JSON-body failure leaves every field but
the error and loading flag untouched. -/
theorem fetch_failure_atomic_witness :
    nonArrayFailure (.axios { response := some (.nonArr "Internal Server Error")
                              request := true, code := "ERR_BAD_RESPONSE"
                              message := "Request failed with status code 500" })
    ∧ ((fetchCryptocurrencies initialState
          (.failure (.axios { response := some (.nonArr "Internal Server Error")
                              request := true, code := "ERR_BAD_RESPONSE"
                              message := "Request failed with status code 500" }))).cryptocurrencies
        = initialState.cryptocurrencies
      ∧ (fetchCryptocurrencies initialState
          (.failure (.axios { response := some (.nonArr "Internal Server Error")
                              request := true, code := "ERR_BAD_RESPONSE"
                              message := "Request failed with status code 500" }))).searchTerm
        = initialState.searchTerm
      ∧ (fetchCryptocurrencies initialState
          (.failure (.axios { response := some (.nonArr "Internal Server Error")
                              request := true, code := "ERR_BAD_RESPONSE"
                              message := "Request failed with status code 500" }))).searchResults
        = initialState.searchResults
      ∧ (fetchCryptocurrencies initialState
          (.failure (.axios { response := some (.nonArr "Internal Server Error")
                              request := true, code := "ERR_BAD_RESPONSE"
                              message := "Request failed with status code 500" }))).isSearchDialogOpen
        = initialState.isSearchDialogOpen
      ∧ (fetchCryptocurrencies initialState
          (.failure (.axios { response := some (.nonArr "Internal Server Error")
                              request := true, code := "ERR_BAD_RESPONSE"
                              message := "Request failed with status code 500" }))).anchorElSet
        = initialState.anchorElSet) :=
  ⟨trivial, fetch_failure_atomic initialState _ trivial⟩

/-- C4 counterexample: a concrete 10 s list-fetch timeout (axios shape:
`ECONNABORTED`, no response, request present) is reported with the
network-unreachable class message, which does not even contain the
"timed out" wording of the timeout class. -/
theorem fetch_timeout_not_timeout_class :
    isTimeoutError timeoutError
    ∧ (fetchCryptocurrencies initialState (.failure (.axios timeoutError))).error
        = "No response from server. Check your network connection."
    ∧ jsIncludes
        (fetchCryptocurrencies initialState (.failure (.axios timeoutError))).error
        "timed out" = false := by
  exact ⟨⟨rfl, rfl, rfl⟩, rfl, by decide⟩

/-- C4 (amended): `fetchCryptocurrencies` has no timeout-specific branch —
every timeout of the list fetch is reported with the network-unreachable
class message "No response from server. Check your network connection."
(only the connectivity probe classifies timeouts separately). -/
theorem fetch_timeout_message (s : UIState) (a : AxiosErrorModel)
    (h : isTimeoutError a) :
    (fetchCryptocurrencies s (.failure (.axios a))).error
      = "No response from server. Check your network connection." := by
  obtain ⟨hcode, hresp, hreq⟩ := h
  obtain ⟨resp, rq, code, msg⟩ := a
  simp only at hresp hreq
  subst hresp hreq
  rfl

/-- C4 witness: the amended statement at the concrete timeout error. -/
theorem fetch_timeout_message_witness :
    isTimeoutError timeoutError
    ∧ (fetchCryptocurrencies initialState (.failure (.axios timeoutError))).error
        = "No response from server. Check your network connection." :=
  ⟨⟨rfl, rfl, rfl⟩, fetch_timeout_message initialState timeoutError ⟨rfl, rfl, rfl⟩⟩

/-- A UI state mid-search: dialog open, text typed, one candidate showing. -/
def stateWithSearch : UIState :=
  { initialState with
    isLoading := false
    isSearchDialogOpen := true
    searchTerm := "do"
    searchResults := [{ symbol := "DOGE", name := "Dogecoin" }]
    anchorElSet := true }

/-- C3 counterexample: selecting a candidate from the popup list clears the
search text synchronously, so when the add then fails the search text is
empty — the failure does not leave the search state untouched on that path. -/
theorem popup_add_failure_clears_search :
    stateWithSearch.searchTerm = "do"
    ∧ (handleSelectSearchResult stateWithSearch { symbol := "DOGE", name := "Dogecoin" }
        (.axiosFailure (some "Cryptocurrency not found"))).searchTerm = ""
    ∧ (handleSelectSearchResult stateWithSearch { symbol := "DOGE", name := "Dogecoin" }
        (.axiosFailure (some "Cryptocurrency not found"))).isSearchDialogOpen = true :=
  ⟨rfl, rfl, rfl⟩

/-- C3 (amended): a failing add leaves the dialog-open flag unchanged on both
selection paths; on the dialog-list path the search text and candidates are
untouched, but on the popup path they are cleared at selection time regardless
of the add's outcome. -/
theorem add_failure_dialog_and_search (s : UIState) (symbol : String)
    (be : Option String) (r : SearchResult) :
    ((handleAddCrypto s symbol (.axiosFailure be)).isSearchDialogOpen = s.isSearchDialogOpen
      ∧ (handleAddCrypto s symbol (.axiosFailure be)).searchTerm = s.searchTerm
      ∧ (handleAddCrypto s symbol (.axiosFailure be)).searchResults = s.searchResults)
    ∧ ((handleAddCrypto s symbol .otherFailure).isSearchDialogOpen = s.isSearchDialogOpen
      ∧ (handleAddCrypto s symbol .otherFailure).searchTerm = s.searchTerm
      ∧ (handleAddCrypto s symbol .otherFailure).searchResults = s.searchResults)
    ∧ ((handleSelectSearchResult s r (.axiosFailure be)).isSearchDialogOpen = s.isSearchDialogOpen
      ∧ (handleSelectSearchResult s r (.axiosFailure be)).searchTerm = ""
      ∧ (handleSelectSearchResult s r (.axiosFailure be)).searchResults = [])
    ∧ ((handleSelectSearchResult s r .otherFailure).isSearchDialogOpen = s.isSearchDialogOpen
      ∧ (handleSelectSearchResult s r .otherFailure).searchTerm = ""
      ∧ (handleSelectSearchResult s r .otherFailure).searchResults = []) :=
  ⟨⟨rfl, rfl, rfl⟩, ⟨rfl, rfl, rfl⟩, ⟨rfl, rfl, rfl⟩, ⟨rfl, rfl, rfl⟩⟩

/-- A UI state carrying a pending error message from an earlier failure. -/
def stateWithError : UIState :=
  { initialState with isLoading := false, error := "Server Error: boom" }

/-- C6 counterexample: a successful search settles without clearing the
pending error message — search success is a successful operation that does
not clear the transient error. -/
theorem search_success_keeps_error :
    stateWithError.error = "Server Error: boom"
    ∧ (searchCryptocurrencies stateWithError "btc"
        (.success [{ symbol := "BTC", name := "Bitcoin" }])).error = "Server Error: boom"
    ∧ (searchCryptocurrencies stateWithError "btc"
        (.success [{ symbol := "BTC", name := "Bitcoin" }])).error ≠ "" := by
  refine ⟨rfl, ?_, ?_⟩ <;> decide

/-- C6 (amended): fetchList clears the error at invocation start (so it is
empty whenever a fetch settles successfully) and a successful add clears it on
settle, but a successful search leaves the error message unchanged. -/
theorem error_clearing_per_operation (s : UIState) (q : String)
    (data : List SearchResult) (symbol : String) (fo : FetchOutcome)
    (coins : List Cryptocurrency) :
    (fetchStart s).error = ""
    ∧ (fetchCryptocurrencies s (.success coins)).error = ""
    ∧ (handleAddCrypto s symbol (.success fo)).error = ""
    ∧ (searchCryptocurrencies s q (.success data)).error = s.error := by
  refine ⟨rfl, rfl, rfl, ?_⟩
  by_cases hq : q.length < 2 <;> simp [searchCryptocurrencies, hq]

/-- C7: every successful search with a query of length at least 2 stores
exactly the response candidates that match the case-insensitive substring
re-filter, capped to the first 10 — hence always a subset of the response of
length at most 10. -/
theorem search_success_results (s : UIState) (query : String)
    (data : List SearchResult) (h : 2 ≤ query.length) :
    (searchCryptocurrencies s query (.success data)).searchResults
        = (data.filter (searchMatches query)).take 10
    ∧ (searchCryptocurrencies s query (.success data)).searchResults ⊆ data
    ∧ (searchCryptocurrencies s query (.success data)).searchResults.length ≤ 10 := by
  have hq : ¬ query.length < 2 := by omega
  refine ⟨?_, ?_, ?_⟩
  · simp [searchCryptocurrencies, hq, validResults]
  · simp only [searchCryptocurrencies, hq, if_false, validResults]
    exact ((List.take_sublist 10 _).trans (List.filter_sublist _)).subset
  · simp only [searchCryptocurrencies, hq, if_false, validResults]
    exact List.length_take_le 10 _

/-- C7 witness: the spec's own scenario — search "bt" over BTC and ETH keeps
only BTC, a subset of the response of length at most 10. -/
theorem search_success_results_witness :
    2 ≤ ("bt" : String).length
    ∧ ((searchCryptocurrencies initialState "bt"
          (.success [{ symbol := "BTC", name := "Bitcoin" },
                     { symbol := "ETH", name := "Ethereum" }])).searchResults
        = (([{ symbol := "BTC", name := "Bitcoin" },
             { symbol := "ETH", name := "Ethereum" }] : List SearchResult).filter
              (searchMatches "bt")).take 10
      ∧ (searchCryptocurrencies initialState "bt"
          (.success [{ symbol := "BTC", name := "Bitcoin" },
                     { symbol := "ETH", name := "Ethereum" }])).searchResults
          ⊆ [{ symbol := "BTC", name := "Bitcoin" },
             { symbol := "ETH", name := "Ethereum" }]
      ∧ (searchCryptocurrencies initialState "bt"
          (.success [{ symbol := "BTC", name := "Bitcoin" },
                     { symbol := "ETH", name := "Ethereum" }])).searchResults.length ≤ 10) :=
  ⟨by decide, search_success_results initialState "bt"
      [{ symbol := "BTC", name := "Bitcoin" }, { symbol := "ETH", name := "Ethereum" }]
      (by decide)⟩

/-- C8: a successful add issues exactly one subsequent list re-fetch, and once
everything settles the dialog is closed and the search term, candidate list,
and error message are all cleared. -/
theorem add_success_refetch_and_clears (s : UIState) (symbol : String)
    (fo : FetchOutcome) :
    countFetchCalls (handleAddCryptoSuccessScript symbol) = 1
    ∧ (handleAddCrypto s symbol (.success fo)).isSearchDialogOpen = false
    ∧ (handleAddCrypto s symbol (.success fo)).searchTerm = ""
    ∧ (handleAddCrypto s symbol (.success fo)).searchResults = []
    ∧ (handleAddCrypto s symbol (.success fo)).error = "" :=
  ⟨rfl, rfl, rfl, rfl, rfl⟩

/-- In a chained burst, the invocation scheduled by the most recent keystroke
never comes due before the next keystroke cancels and reschedules it, so only
the last keystroke's invocation survives. -/
theorem debounceRun_pending_burst (events : List (Nat × String)) :
    ∀ (t : Nat) (q : String),
      List.Chain' (fun e f => e.1 ≤ f.1 ∧ f.1 < e.1 + debounceDelay) ((t, q) :: events) →
      ∀ (tN : Nat) (qN : String), ((t, q) :: events).getLast? = some (tN, qN) →
      debounceRun (some (t + debounceDelay, q)) events = [(tN + debounceDelay, qN)] := by
  induction events with
  | nil =>
    intro t q _ tN qN hlast
    simp only [List.getLast?_singleton, Option.some.injEq, Prod.mk.injEq] at hlast
    obtain ⟨rfl, rfl⟩ := hlast
    rfl
  | cons e rest ih =>
    obtain ⟨u, r⟩ := e
    intro t q hchain tN qN hlast
    rw [List.chain'_cons] at hchain
    obtain ⟨⟨hle, hlt⟩, hchain'⟩ := hchain
    have hnot : ¬ (t + debounceDelay ≤ u) := by
      simp only at hlt
      omega
    rw [List.getLast?_cons_cons] at hlast
    calc debounceRun (some (t + debounceDelay, q)) ((u, r) :: rest)
        = debounceRun (some (u + debounceDelay, r)) rest := by
          simp only [debounceRun, if_neg hnot]
      _ = [(tN + debounceDelay, qN)] := ih u r hchain' tN qN hlast

/-- C9: a burst of keystrokes each arriving within 300 ms of the previous one
produces exactly one debounced search invocation, fired 300 ms after the last
keystroke with the last keystroke's text. -/
theorem debounce_burst_single_call (events : List (Nat × String)) (tN : Nat)
    (qN : String) (hchain : burstChained events)
    (hlast : events.getLast? = some (tN, qN)) :
    debouncedSearchCalls events = [(tN + debounceDelay, qN)] := by
  cases events with
  | nil => simp at hlast
  | cons e rest =>
    obtain ⟨t, q⟩ := e
    have hstep : debouncedSearchCalls ((t, q) :: rest)
        = debounceRun (some (t + debounceDelay, q)) rest := rfl
    rw [hstep]
    exact debounceRun_pending_burst rest t q hchain tN qN hlast

/-- C9 witness: three keystrokes at 0, 100 and 250 ms yield exactly one
invocation, at 550 ms, with the final text. -/
theorem debounce_burst_single_call_witness :
    burstChained [(0, "b"), (100, "bt"), (250, "btc")]
    ∧ ([(0, "b"), (100, "bt"), (250, "btc")] : List (Nat × String)).getLast?
        = some (250, "btc")
    ∧ debouncedSearchCalls [(0, "b"), (100, "bt"), (250, "btc")]
        = [(250 + debounceDelay, "btc")] :=
  ⟨by simp [burstChained, List.chain'_cons, debounceDelay], by decide,
    debounce_burst_single_call [(0, "b"), (100, "bt"), (250, "btc")] 250 "btc"
      (by simp [burstChained, List.chain'_cons, debounceDelay]) (by decide)⟩
